import Mathlib

/-
  Verification of the Obstackd test-harness polling primitives, the demo
  telemetry generator, and the config validators, against their design
  contracts.  Definitions below are shallow embeddings of the Python source:

  * `waitLoop`   embeds the integration-conftest readiness-wait pattern
    (src/tests/integration/conftest.py `wait_for_homeassistant`,
    `wait_for_prometheus`, `wait_for_otel_collector`, and the analogous
    fixtures in the integration test modules): a for-loop over
    `range(max_retries)` that issues one HTTP GET per attempt inside a
    try/except, returns on the first successful classification and otherwise
    sleeps `retry_interval` at the end of every iteration, failing after
    the loop.
  * `stackLoop`  embeds the e2e-conftest per-component pattern
    (src/tests/e2e/conftest.py `wait_for_stack`): the same loop except that
    on the final failed attempt it fails before sleeping, so a sleep
    separates consecutive probes only.
  * `stackRuns` / `waitForStack` embed the whole `wait_for_stack` fixture:
    the four components probed in sequence, followed by an unconditional
    extra `time.sleep(10)` once every component reported ready.
  * `pollLoop`   embeds the eventual-consistency while-loop of
    src/tests/e2e/test_telemetry_flow.py `test_metric_reaches_prometheus`:
    each iteration runs the query inside try/except, breaks on a satisfying
    result, treats exceptions as retries, and after the deadline raises an
    assertion whose message is the fixed not-found string.
  * `generate`   embeds the telemetry produced by one invocation of the
    demo app handler src/apps/telemetry-generator/app.py `generate`.
  * `requiredSectionsOk` embeds the required-section checks of the unit
    config validators (test_prometheus_config_validation.py
    `test_required_sections_present`, test_otel_config_validation.py
    `test_all_required_sections_present`).
-/

namespace Obstackd

/-- Outcome of one `requests.get` call: either a response with a status code
and a body, or a network-level failure (`requests.exceptions.RequestException`:
connection refused, timeout, ...). -/
inductive HTTPResult where
  | resp (status : Nat) (body : String)
  | netError
deriving DecidableEq, Repr

/-- Observable events of a waiter execution: each `probe b` is exactly one
HTTP request whose classified outcome was `b`; each `sleep s` is a
`time.sleep(s)`. -/
inductive Event where
  | probe (success : Bool)
  | sleep (seconds : Nat)
deriving DecidableEq, Repr

/-- Success classification used by almost every waiter:
`response.status_code == 200`. -/
def ready200 (status : Nat) (_body : String) : Bool := status == 200

/-- Success classification of `wait_for_homeassistant`
(integration conftest): `response.status_code in [200, 401]`. -/
def readyHomeAssistant (status : Nat) (_body : String) : Bool :=
  status == 200 || status == 401

/-- Success classification of `wait_for_otel_collector` in the integration
conftest: `response.status_code == 200 and len(response.text) > 100`. -/
def readyOtelCollector (status : Nat) (body : String) : Bool :=
  status == 200 && decide (body.length > 100)

/-- One attempt of the try/except body: a network error is caught by the
`except requests.exceptions.RequestException: pass` clause and counts as a
failed attempt; a received response is classified by the waiter. -/
def attemptOutcome (ready : Nat → String → Bool) : HTTPResult → Bool
  | .resp s b => ready s b
  | .netError => false

/-- Result of running a waiter: the event trace, the number of loop
iterations executed (each iteration issues one HTTP request), and whether
the waiter declared success (`False` means `pytest.fail` was reached). -/
structure Run where
  events : List Event
  attempts : Nat
  success : Bool
deriving DecidableEq, Repr

/-- Integration-conftest waiter loop (`for attempt in range(fuel)`): probe,
return on success, otherwise sleep `interval` at the end of every iteration;
`pytest.fail` after the loop.  `env i` is the outcome of the HTTP request of
attempt index `i`. -/
def waitLoop (ready : Nat → String → Bool) (interval : Nat)
    (env : Nat → HTTPResult) : Nat → Nat → Run
  | 0, _ => ⟨[], 0, false⟩
  | fuel + 1, i =>
    if attemptOutcome ready (env i) then
      ⟨[.probe true], 1, true⟩
    else
      let rest := waitLoop ready interval env fuel (i + 1)
      ⟨.probe false :: .sleep interval :: rest.events, rest.attempts + 1, rest.success⟩

/-- Per-component loop of the e2e `wait_for_stack` fixture: probe, break on
success, `pytest.fail` on the last failed attempt before sleeping, otherwise
sleep `interval` and retry. -/
def stackLoop (ready : Nat → String → Bool) (interval : Nat)
    (env : Nat → HTTPResult) : Nat → Nat → Run
  | 0, _ => ⟨[], 0, false⟩
  | 1, i =>
    if attemptOutcome ready (env i) then ⟨[.probe true], 1, true⟩
    else ⟨[.probe false], 1, false⟩
  | fuel + 2, i =>
    if attemptOutcome ready (env i) then
      ⟨[.probe true], 1, true⟩
    else
      let rest := stackLoop ready interval env (fuel + 1) (i + 1)
      ⟨.probe false :: .sleep interval :: rest.events, rest.attempts + 1, rest.success⟩

/-- The `wait_for_stack` fixture body: probe each component in turn with a
budget of 60 attempts at interval 2 and success classification
`status == 200`; on a component failure `pytest.fail` aborts; after all
components are ready, an unconditional `time.sleep(10)` runs before the
fixture returns. -/
def stackRuns : List (Nat → HTTPResult) → Run
  | [] => ⟨[.sleep 10], 0, true⟩
  | env :: rest =>
    let r := stackLoop ready200 2 env 60 0
    if r.success then
      let rr := stackRuns rest
      ⟨r.events ++ rr.events, r.attempts + rr.attempts, rr.success⟩
    else
      ⟨r.events, r.attempts, false⟩

/-- `wait_for_stack` with its four components (the Prometheus healthy
endpoint, Tempo `/ready`, Loki `/ready`, Grafana `/api/health`), all
classified by `status == 200`. -/
def waitForStack (e1 e2 e3 e4 : Nat → HTTPResult) : Run :=
  stackRuns [e1, e2, e3, e4]

/-- Number of probe events (= HTTP requests issued) in a trace. -/
def probeCount : List Event → Nat
  | [] => 0
  | .probe _ :: rest => probeCount rest + 1
  | .sleep _ :: rest => probeCount rest

/-- Total seconds slept in a trace. -/
def sleepTotal : List Event → Nat
  | [] => 0
  | .probe _ :: rest => sleepTotal rest
  | .sleep s :: rest => s + sleepTotal rest

/-- Helper for `probeGaps`: accumulates sleep seconds seen since the last
probe and emits the accumulated amount at each following probe. -/
def gapsFrom (acc : Nat) : List Event → List Nat
  | [] => []
  | .sleep s :: rest => gapsFrom (acc + s) rest
  | .probe _ :: rest => acc :: gapsFrom 0 rest

/-- For each pair of consecutive probes in a trace, the seconds slept
between them. -/
def probeGaps : List Event → List Nat
  | [] => []
  | .sleep _ :: rest => probeGaps rest
  | .probe _ :: rest => gapsFrom 0 rest

/-- Trace of `n` failed attempts of the integration pattern: each failed
probe is followed by a sleep. -/
def neverTrace (interval : Nat) : Nat → List Event
  | 0 => []
  | n + 1 => .probe false :: .sleep interval :: neverTrace interval n

/-- Trace of `n` failed attempts of the e2e per-component pattern: sleeps
separate consecutive probes only, with no sleep after the final probe. -/
def stackNeverTrace (interval : Nat) : Nat → List Event
  | 0 => []
  | 1 => [.probe false]
  | n + 2 => .probe false :: .sleep interval :: stackNeverTrace interval (n + 1)

/-- Environment override: the run observes `v` at attempt index `j` and
`env` everywhere else. -/
def updEnv (env : Nat → HTTPResult) (j : Nat) (v : HTTPResult) : Nat → HTTPResult :=
  fun i => if i = j then v else env i

/-- The environment of a dependency that never starts listening: every
request ends in a network error. -/
def envDown : Nat → HTTPResult := fun _ => .netError

/-- Outcome surfaced by the eventual-consistency poll loop: either the
satisfying query result, or the assertion failure raised after the
deadline with its message. -/
inductive PollResult (α : Type) where
  | found (r : α)
  | failed (message : String)
deriving DecidableEq, Repr

/-- The assertion message of `test_metric_reaches_prometheus` after the
deadline: `assert metric_found, f"Metric with test_id=... not found in
Prometheus after 30 seconds"`.  It interpolates only the test id. -/
def notFoundMessage (testId : String) : String :=
  "Metric with test_id=" ++ testId ++ " not found in Prometheus after 30 seconds"

/-- Whether one poll iteration observes a satisfying result: a raised
exception (`Except.error`) is caught and never satisfies. -/
def satisfiesB {α : Type} (pred : α → Bool) : Except String α → Bool
  | .ok r => pred r
  | .error _ => false

/-- Eventual-consistency poll loop of `test_metric_reaches_prometheus`:
while the deadline has not passed (`fuel` iterations remain), run the query
in a try/except; break with the result when the predicate holds; treat an
exception like an unsatisfying result and keep polling; after the deadline
raise the fixed not-found assertion.  The first component lists the indices
of the queries issued. -/
def pollLoop {α : Type} (pred : α → Bool) (env : Nat → Except String α)
    (testId : String) : Nat → Nat → List Nat × PollResult α
  | 0, _ => ([], .failed (notFoundMessage testId))
  | fuel + 1, i =>
    match env i with
    | .ok r =>
      if pred r then ([i], .found r)
      else
        let rest := pollLoop pred env testId fuel (i + 1)
        (i :: rest.1, rest.2)
    | .error _ =>
      let rest := pollLoop pred env testId fuel (i + 1)
      (i :: rest.1, rest.2)

/-- Poll-environment override, analogous to `updEnv`. -/
def updPollEnv {α : Type} (env : Nat → Except String α) (j : Nat)
    (v : Except String α) : Nat → Except String α :=
  fun i => if i = j then v else env i

/-- Example predicate for concrete poll runs: the queried counter value
equals 7. -/
def predSeven (r : Nat) : Bool := r == 7

/-- Concrete poll environment: the first query raises, the second returns
an unsatisfying result, and every later query returns a satisfying one. -/
def envSeven : Nat → Except String Nat :=
  fun i => if i = 0 then .error "boom" else if i = 1 then .ok 3 else .ok 7

/-- Concrete poll environment in which every query raises a connection
error. -/
def envRefused : Nat → Except String Nat := fun _ => .error "connection refused"

/-- Concrete poll environment in which every query raises a malformed-query
error. -/
def envMalformed : Nat → Except String Nat := fun _ => .error "malformed query"

/-- OpenTelemetry attribute / label / log-field values as the demo app
produces them: Python ints and strings. -/
inductive AttrValue where
  | intVal (n : Int)
  | strVal (s : String)
deriving DecidableEq, Repr

/-- The telemetry of one invocation of the `/generate` handler: the span
attributes, the fields attached to the two emitted log records, and the
labels of the two metric updates. -/
structure GenerateTelemetry where
  spanAttrs : List (String × AttrValue)
  logStarted : List (String × AttrValue)
  logCompleted : List (String × AttrValue)
  counterLabels : List (String × AttrValue)
  histogramLabels : List (String × AttrValue)
deriving DecidableEq, Repr

/-- The `/generate` handler of src/apps/telemetry-generator/app.py, with
the randomly minted `operation_id` and the measured `duration` as
parameters.  The span receives `operation.id` and `operation.type`; both
log records receive `operation.id` plus a status (and the duration on the
second); the counter update is labelled `endpoint=/generate, status=success`
and the histogram update `endpoint=/generate`. -/
def generate (operationId : Int) (duration : AttrValue) : GenerateTelemetry :=
  { spanAttrs := [("operation.id", .intVal operationId),
                  ("operation.type", .strVal "generate")]
    logStarted := [("operation.id", .intVal operationId),
                   ("status", .strVal "started")]
    logCompleted := [("operation.id", .intVal operationId),
                     ("status", .strVal "completed"),
                     ("duration", duration)]
    counterLabels := [("endpoint", .strVal "/generate"),
                      ("status", .strVal "success")]
    histogramLabels := [("endpoint", .strVal "/generate")] }

/-- Required-section check of the unit config validators: every key of
`required` must be a top-level key of the document (`assert section in
config`). -/
def requiredSectionsOk (required doc : List String) : Bool :=
  required.all (fun k => decide (k ∈ doc))

/-- Required top-level sections of the Prometheus config
(test_prometheus_config_validation.py `test_required_sections_present`). -/
def prometheusRequiredSections : List String := ["global"]

/-- Required top-level sections of the OTel Collector config
(test_otel_config_validation.py `test_all_required_sections_present`). -/
def otelRequiredSections : List String :=
  ["receivers", "processors", "exporters", "service"]

/-- Remove a top-level key from a config document. -/
def removeKey (doc : List String) (k : String) : List String :=
  doc.filter (fun x => x != k)

/-- Which sleep placement a waiter loop uses: the e2e `wait_for_stack`
sleeps only between attempts, the integration-style fixtures sleep after
every failed attempt. -/
inductive LoopStyle where
  | betweenOnly
  | afterEach
deriving DecidableEq, Repr

/-- A readiness waiter of the harness with its configured retry budget and
interval. -/
structure WaiterConfig where
  description : String
  maxAttempts : Nat
  interval : Nat
  style : LoopStyle
deriving DecidableEq, Repr

/-- The per-component configuration of the e2e `wait_for_stack` fixture. -/
def stackWaiterConfig : WaiterConfig :=
  ⟨"e2e conftest wait_for_stack, per component", 60, 2, .betweenOnly⟩

/-- Every readiness waiter of the harness with its `max_retries` and
`retry_interval` as written in the source. -/
def harnessWaiters : List WaiterConfig :=
  [stackWaiterConfig,
   ⟨"integration conftest wait_for_homeassistant", 30, 2, .afterEach⟩,
   ⟨"integration conftest wait_for_prometheus", 30, 2, .afterEach⟩,
   ⟨"integration conftest wait_for_otel_collector", 30, 2, .afterEach⟩,
   ⟨"test_loki_integration wait_for_loki", 60, 2, .afterEach⟩,
   ⟨"test_tempo_integration wait_for_tempo", 60, 2, .afterEach⟩,
   ⟨"test_grafana_integration wait_for_grafana", 60, 2, .afterEach⟩,
   ⟨"test_dashboards wait_for_grafana", 60, 2, .afterEach⟩,
   ⟨"test_alloy_and_dashboards wait_for_alloy", 60, 2, .afterEach⟩,
   ⟨"test_otel_collector wait_for_otel_collector", 60, 2, .afterEach⟩,
   ⟨"test_prometheus_scraping wait_for_prometheus", 60, 2, .afterEach⟩]

/-- The run a waiter performs against a dependency that never becomes
ready. -/
def runWaiterDown (w : WaiterConfig) : Run :=
  match w.style with
  | .afterEach => waitLoop ready200 w.interval envDown w.maxAttempts 0
  | .betweenOnly => stackLoop ready200 w.interval envDown w.maxAttempts 0

/-- Worst-case wait window of a waiter: the seconds it spends sleeping
before declaring failure against a dependency that never becomes ready
(probes themselves modelled as instantaneous). -/
def worstCaseWindow (w : WaiterConfig) : Nat :=
  sleepTotal (runWaiterDown w).events

/-- A component environment that answers 200 immediately. -/
def envUp : Nat → HTTPResult := fun _ => .resp 200 "ok"

/-- An environment whose first probe fails with a network error and whose
later probes answer 200. -/
def envSecondTry : Nat → HTTPResult :=
  fun i => if i = 0 then .netError else .resp 200 "ok"

theorem waitLoop_never (ready : Nat → String → Bool) (interval : Nat)
    (env : Nat → HTTPResult)
    (h : ∀ i, attemptOutcome ready (env i) = false) :
    ∀ fuel i, waitLoop ready interval env fuel i =
      ⟨neverTrace interval fuel, fuel, false⟩ := by
  intro fuel
  induction fuel with
  | zero => intro i; rfl
  | succ n ih =>
    intro i
    simp only [waitLoop, h i, ih (i + 1), neverTrace]
    simp

theorem stackLoop_never (ready : Nat → String → Bool) (interval : Nat)
    (env : Nat → HTTPResult)
    (h : ∀ i, attemptOutcome ready (env i) = false) :
    ∀ fuel i, stackLoop ready interval env fuel i =
      ⟨stackNeverTrace interval fuel, fuel, false⟩ := by
  intro fuel
  induction fuel with
  | zero => intro i; rfl
  | succ n ih =>
    intro i
    match n with
    | 0 =>
      simp only [stackLoop, h i, stackNeverTrace]
      simp
    | m + 1 =>
      simp only [stackLoop, h i, ih (i + 1), stackNeverTrace]
      simp

theorem probeCount_neverTrace (interval : Nat) :
    ∀ n, probeCount (neverTrace interval n) = n := by
  intro n
  induction n with
  | zero => rfl
  | succ m ih => simp only [neverTrace, probeCount, ih]

theorem probeCount_stackNeverTrace (interval : Nat) :
    ∀ n, probeCount (stackNeverTrace interval n) = n := by
  intro n
  induction n with
  | zero => rfl
  | succ m ih =>
    match m with
    | 0 => rfl
    | k + 1 => simp only [stackNeverTrace, probeCount, ih]

theorem gapsAfterProbe_neverTrace (interval : Nat) :
    ∀ m, gapsFrom 0 (Event.sleep interval :: neverTrace interval m) =
      List.replicate m interval := by
  intro m
  induction m with
  | zero => rfl
  | succ k ih =>
    simp only [neverTrace, gapsFrom] at ih ⊢
    rw [ih]
    simp [List.replicate_succ]

theorem probeGaps_neverTrace (interval n : Nat) :
    probeGaps (neverTrace interval (n + 1)) = List.replicate n interval := by
  have h := gapsAfterProbe_neverTrace interval n
  simp only [neverTrace, probeGaps]
  exact h

theorem gapsFrom_stackNeverTrace (interval : Nat) :
    ∀ n acc, gapsFrom acc (stackNeverTrace interval (n + 1)) =
      acc :: List.replicate n interval := by
  intro n
  induction n with
  | zero => intro acc; rfl
  | succ m ih =>
    intro acc
    simp only [stackNeverTrace, gapsFrom]
    rw [ih (0 + interval)]
    simp [List.replicate_succ]

theorem probeGaps_stackNeverTrace (interval n : Nat) :
    probeGaps (stackNeverTrace interval (n + 1)) = List.replicate n interval := by
  match n with
  | 0 => rfl
  | m + 1 =>
    have h := gapsFrom_stackNeverTrace interval m (0 + interval)
    simp only [stackNeverTrace, probeGaps, gapsFrom]
    rw [h]
    simp [List.replicate_succ]

theorem waitLoop_succ (ready : Nat → String → Bool) (interval : Nat)
    (env : Nat → HTTPResult) :
    ∀ k m i, k + 1 ≤ m →
      attemptOutcome ready (env (i + k)) = true →
      (∀ j, j < k → attemptOutcome ready (env (i + j)) = false) →
      waitLoop ready interval env m i =
        ⟨neverTrace interval k ++ [.probe true], k + 1, true⟩ := by
  intro k
  induction k with
  | zero =>
    intro m i hm hs _
    obtain ⟨n, rfl⟩ : ∃ n, m = n + 1 := ⟨m - 1, by omega⟩
    simp only [Nat.add_zero] at hs
    simp only [waitLoop, hs, neverTrace]
    simp
  | succ k ih =>
    intro m i hm hs hf
    obtain ⟨n, rfl⟩ : ∃ n, m = n + 1 := ⟨m - 1, by omega⟩
    have h0 : attemptOutcome ready (env i) = false := by
      have := hf 0 (Nat.succ_pos k)
      simpa using this
    have hs' : attemptOutcome ready (env (i + 1 + k)) = true := by
      have e : i + 1 + k = i + (k + 1) := by omega
      rw [e]; exact hs
    have hf' : ∀ j, j < k → attemptOutcome ready (env (i + 1 + j)) = false := by
      intro j hj
      have e : i + 1 + j = i + (j + 1) := by omega
      rw [e]; exact hf (j + 1) (by omega)
    have hrec := ih n (i + 1) (by omega) hs' hf'
    simp only [waitLoop, h0, hrec, neverTrace]
    simp

theorem stackLoop_succ (ready : Nat → String → Bool) (interval : Nat)
    (env : Nat → HTTPResult) :
    ∀ k m i, k + 1 ≤ m →
      attemptOutcome ready (env (i + k)) = true →
      (∀ j, j < k → attemptOutcome ready (env (i + j)) = false) →
      stackLoop ready interval env m i =
        ⟨neverTrace interval k ++ [.probe true], k + 1, true⟩ := by
  intro k
  induction k with
  | zero =>
    intro m i hm hs _
    obtain ⟨n, rfl⟩ : ∃ n, m = n + 1 := ⟨m - 1, by omega⟩
    simp only [Nat.add_zero] at hs
    match n with
    | 0 =>
      simp only [stackLoop, hs, neverTrace]
      simp
    | n + 1 =>
      simp only [stackLoop, hs, neverTrace]
      simp
  | succ k ih =>
    intro m i hm hs hf
    obtain ⟨n, rfl⟩ : ∃ n, m = n + 2 := ⟨m - 2, by omega⟩
    have h0 : attemptOutcome ready (env i) = false := by
      have := hf 0 (Nat.succ_pos k)
      simpa using this
    have hs' : attemptOutcome ready (env (i + 1 + k)) = true := by
      have e : i + 1 + k = i + (k + 1) := by omega
      rw [e]; exact hs
    have hf' : ∀ j, j < k → attemptOutcome ready (env (i + 1 + j)) = false := by
      intro j hj
      have e : i + 1 + j = i + (j + 1) := by omega
      rw [e]; exact hf (j + 1) (by omega)
    have hrec := ih (n + 1) (i + 1) (by omega) hs' hf'
    simp only [stackLoop, h0, hrec, neverTrace]
    simp

theorem probeCount_append (a b : List Event) :
    probeCount (a ++ b) = probeCount a + probeCount b := by
  induction a with
  | nil => simp [probeCount]
  | cons e rest ih =>
    cases e with
    | probe s =>
      simp [probeCount, ih]
      omega
    | sleep s =>
      simp [probeCount, ih]

theorem waitLoop_probeCount_eq_attempts (ready : Nat → String → Bool)
    (interval : Nat) (env : Nat → HTTPResult) :
    ∀ m i, probeCount (waitLoop ready interval env m i).events =
      (waitLoop ready interval env m i).attempts := by
  intro m
  induction m with
  | zero => intro i; rfl
  | succ n ih =>
    intro i
    by_cases h : attemptOutcome ready (env i) = true
    · simp only [waitLoop, h, if_true]
      rfl
    · rw [Bool.not_eq_true] at h
      simp only [waitLoop, h]
      simp only [Bool.false_eq_true, if_false, probeCount, ih (i + 1)]

theorem stackLoop_probeCount_eq_attempts (ready : Nat → String → Bool)
    (interval : Nat) (env : Nat → HTTPResult) :
    ∀ m i, probeCount (stackLoop ready interval env m i).events =
      (stackLoop ready interval env m i).attempts := by
  intro m
  induction m with
  | zero => intro i; rfl
  | succ n ih =>
    intro i
    match n with
    | 0 =>
      by_cases h : attemptOutcome ready (env i) = true
      · simp only [stackLoop, h, if_true]
        rfl
      · rw [Bool.not_eq_true] at h
        simp only [stackLoop, h]
        simp [probeCount]
    | n + 1 =>
      by_cases h : attemptOutcome ready (env i) = true
      · simp only [stackLoop, h, if_true]
        rfl
      · rw [Bool.not_eq_true] at h
        simp only [stackLoop, h]
        simp only [Bool.false_eq_true, if_false, probeCount, ih (i + 1)]

theorem waitLoop_congr (ready : Nat → String → Bool) (interval : Nat)
    (env1 env2 : Nat → HTTPResult)
    (h : ∀ i, attemptOutcome ready (env1 i) = attemptOutcome ready (env2 i)) :
    ∀ m i, waitLoop ready interval env1 m i = waitLoop ready interval env2 m i := by
  intro m
  induction m with
  | zero => intro i; rfl
  | succ n ih =>
    intro i
    simp only [waitLoop, h i, ih (i + 1)]

theorem stackLoop_congr (ready : Nat → String → Bool) (interval : Nat)
    (env1 env2 : Nat → HTTPResult)
    (h : ∀ i, attemptOutcome ready (env1 i) = attemptOutcome ready (env2 i)) :
    ∀ m i, stackLoop ready interval env1 m i = stackLoop ready interval env2 m i := by
  intro m
  induction m with
  | zero => intro i; rfl
  | succ n ih =>
    intro i
    match n with
    | 0 => simp only [stackLoop, h i]
    | n + 1 => simp only [stackLoop, h i, ih (i + 1)]

theorem range_map_shift (i j : Nat) :
    i :: (List.range j).map (fun x => i + 1 + x) =
      (List.range (j + 1)).map (fun x => i + x) := by
  rw [List.range_succ_eq_map, List.map_cons, List.map_map]
  refine congrArg₂ List.cons (by omega) ?_
  apply List.map_congr_left
  intro a _
  simp only [Function.comp_apply]
  omega

theorem pollLoop_exhaust {α : Type} (pred : α → Bool)
    (env : Nat → Except String α) (testId : String) :
    ∀ fuel i, (∀ l, l < fuel → satisfiesB pred (env (i + l)) = false) →
      pollLoop pred env testId fuel i =
        ((List.range fuel).map (fun x => i + x),
          .failed (notFoundMessage testId)) := by
  intro fuel
  induction fuel with
  | zero => intro i _; rfl
  | succ n ih =>
    intro i hf
    have h0 : satisfiesB pred (env i) = false := by
      have := hf 0 (Nat.succ_pos n); simpa using this
    have hf' : ∀ l, l < n → satisfiesB pred (env (i + 1 + l)) = false := by
      intro l hl
      have e : i + 1 + l = i + (l + 1) := by omega
      rw [e]; exact hf (l + 1) (by omega)
    have hrec := ih (i + 1) hf'
    cases henv : env i with
    | error e =>
      simp only [pollLoop, henv, hrec]
      rw [range_map_shift]
    | ok r2 =>
      have hp2 : pred r2 = false := by
        have h := h0; rw [henv] at h; simpa [satisfiesB] using h
      simp only [pollLoop, henv, hp2]
      simp only [Bool.false_eq_true, if_false, hrec]
      rw [range_map_shift]

theorem pollLoop_error_like_unsatisfied {α : Type} (pred : α → Bool)
    (env : Nat → Except String α) (testId : String) (j : Nat) (r0 : α)
    (e : String) (hr0 : pred r0 = false) :
    ∀ fuel i, pollLoop pred (updPollEnv env j (.error e)) testId fuel i =
      pollLoop pred (updPollEnv env j (.ok r0)) testId fuel i := by
  intro fuel
  induction fuel with
  | zero => intro i; rfl
  | succ n ih =>
    intro i
    by_cases hij : i = j
    · subst hij
      have hA : updPollEnv env i (Except.error e) i = Except.error e := by
        simp [updPollEnv]
      have hB : updPollEnv env i (Except.ok r0) i = Except.ok r0 := by
        simp [updPollEnv]
      simp only [pollLoop, hA, hB, hr0, Bool.false_eq_true, if_false, ih (i + 1)]
    · have he : updPollEnv env j (Except.error e) i = env i := by
        simp [updPollEnv, hij]
      have ho : updPollEnv env j (Except.ok r0) i = env i := by
        simp [updPollEnv, hij]
      cases henv : env i with
      | error msg =>
        simp only [pollLoop, he, ho, henv, ih (i + 1)]
      | ok r2 =>
        simp only [pollLoop, he, ho, henv, ih (i + 1)]

theorem stackRuns_last :
    ∀ l, (stackRuns l).success = true →
      (stackRuns l).events.getLast? = some (.sleep 10) := by
  intro l
  induction l with
  | nil => intro _; rfl
  | cons env rest ih =>
    intro hs
    by_cases hr : (stackLoop ready200 2 env 60 0).success = true
    · simp only [stackRuns, hr, if_true] at hs ⊢
      have hrest := ih hs
      have hne : (stackRuns rest).events ≠ [] := by
        intro hnil
        rw [hnil] at hrest
        exact Option.noConfusion hrest
      rw [List.getLast?_append_of_ne_nil _ hne]
      exact hrest
    · rw [Bool.not_eq_true] at hr
      simp only [stackRuns, hr] at hs
      simp only [Bool.false_eq_true, if_false] at hs

/-- C1 counterexample: for the `/generate` call with operation id 1234, the
minted identifier is present on the trace span attributes and on both log
records, but the metric data-point labels of the same call (counter and
histogram) carry neither an `operation.id` key nor the identifier in any
form — so the identifier does not appear on all three telemetry kinds. -/
theorem C1_counterexample_metric_labels_lack_id :
    ("operation.id", AttrValue.intVal 1234) ∈
      (generate 1234 (AttrValue.strVal "0.05")).spanAttrs ∧
    ("operation.id", AttrValue.intVal 1234) ∈
      (generate 1234 (AttrValue.strVal "0.05")).logStarted ∧
    ("operation.id", AttrValue.intVal 1234) ∈
      (generate 1234 (AttrValue.strVal "0.05")).logCompleted ∧
    "operation.id" ∉
      (generate 1234 (AttrValue.strVal "0.05")).counterLabels.map Prod.fst ∧
    "operation.id" ∉
      (generate 1234 (AttrValue.strVal "0.05")).histogramLabels.map Prod.fst ∧
    AttrValue.intVal 1234 ∉
      (generate 1234 (AttrValue.strVal "0.05")).counterLabels.map Prod.snd ∧
    AttrValue.strVal "1234" ∉
      (generate 1234 (AttrValue.strVal "0.05")).counterLabels.map Prod.snd ∧
    AttrValue.intVal 1234 ∉
      (generate 1234 (AttrValue.strVal "0.05")).histogramLabels.map Prod.snd ∧
    AttrValue.strVal "1234" ∉
      (generate 1234 (AttrValue.strVal "0.05")).histogramLabels.map Prod.snd := by
  decide

/-- C1 amended: the correlation identifier minted by `/generate` appears
identically (under the `operation.id` key) on the trace span attributes and
on both emitted log records, but the metric data points of the same call
are labelled only with the fixed endpoint/status values and never carry the
identifier. -/
theorem C1_amended_id_on_span_and_logs_only (operationId : Int)
    (duration : AttrValue) :
    ("operation.id", AttrValue.intVal operationId) ∈
      (generate operationId duration).spanAttrs ∧
    ("operation.id", AttrValue.intVal operationId) ∈
      (generate operationId duration).logStarted ∧
    ("operation.id", AttrValue.intVal operationId) ∈
      (generate operationId duration).logCompleted ∧
    (generate operationId duration).counterLabels.map Prod.fst =
      ["endpoint", "status"] ∧
    (generate operationId duration).histogramLabels.map Prod.fst =
      ["endpoint"] ∧
    AttrValue.intVal operationId ∉
      (generate operationId duration).counterLabels.map Prod.snd ∧
    AttrValue.intVal operationId ∉
      (generate operationId duration).histogramLabels.map Prod.snd := by
  refine ⟨?_, ?_, ?_, rfl, rfl, ?_, ?_⟩ <;> simp [generate]

/-- Witness for C1 amended at operation id 42: the identifier is on the
span attributes and absent from the counter label values. -/
theorem C1_amended_id_on_span_and_logs_only_witness :
    ("operation.id", AttrValue.intVal 42) ∈
      (generate 42 (AttrValue.strVal "0.02")).spanAttrs ∧
    AttrValue.intVal 42 ∉
      (generate 42 (AttrValue.strVal "0.02")).counterLabels.map Prod.snd :=
  ⟨(C1_amended_id_on_span_and_logs_only 42 (AttrValue.strVal "0.02")).1,
   (C1_amended_id_on_span_and_logs_only 42 (AttrValue.strVal "0.02")).2.2.2.2.2.1⟩

/-- C2: a readiness waiter probing a target that never returns an expected
status performs exactly `maxAttempts` probes before failing, and every pair
of consecutive probes is separated by at least `interval` seconds of sleep,
in both the integration-conftest loop and the e2e per-component loop. -/
theorem C2_exhausted_waiter_probe_budget (ready : Nat → String → Bool)
    (interval : Nat) (envI envE : Nat → HTTPResult) (mI mE : Nat)
    (hI : ∀ i, attemptOutcome ready (envI i) = false)
    (hE : ∀ i, attemptOutcome ready (envE i) = false) :
    (probeCount (waitLoop ready interval envI mI 0).events = mI ∧
      (waitLoop ready interval envI mI 0).success = false ∧
      ∀ g ∈ probeGaps (waitLoop ready interval envI mI 0).events, interval ≤ g) ∧
    (probeCount (stackLoop ready interval envE mE 0).events = mE ∧
      (stackLoop ready interval envE mE 0).success = false ∧
      ∀ g ∈ probeGaps (stackLoop ready interval envE mE 0).events, interval ≤ g) := by
  rw [waitLoop_never ready interval envI hI mI 0,
    stackLoop_never ready interval envE hE mE 0]
  refine ⟨⟨probeCount_neverTrace interval mI, rfl, ?_⟩,
          ⟨probeCount_stackNeverTrace interval mE, rfl, ?_⟩⟩
  · intro g hg
    cases mI with
    | zero => simp [neverTrace, probeGaps] at hg
    | succ n =>
      rw [probeGaps_neverTrace] at hg
      exact (List.eq_of_mem_replicate hg).ge
  · intro g hg
    cases mE with
    | zero => simp [stackNeverTrace, probeGaps] at hg
    | succ n =>
      rw [probeGaps_stackNeverTrace] at hg
      exact (List.eq_of_mem_replicate hg).ge

/-- Witness for C2 at the budgets used in the harness: 30 attempts of the
integration loop and 60 of the e2e loop against a dead target. -/
theorem C2_exhausted_waiter_probe_budget_witness :
    probeCount (waitLoop ready200 2 envDown 30 0).events = 30 ∧
    (waitLoop ready200 2 envDown 30 0).success = false ∧
    probeCount (stackLoop ready200 2 envDown 60 0).events = 60 ∧
    (stackLoop ready200 2 envDown 60 0).success = false := by
  have h := C2_exhausted_waiter_probe_budget ready200 2 envDown envDown 30 60
    (fun i => rfl) (fun i => rfl)
  exact ⟨h.1.1, h.1.2.1, h.2.1, h.2.2.1⟩

/-- C3: a waiter whose probe first succeeds on attempt k (k ≤ maxAttempts)
performs exactly k probes, declares success, and its trace ends with that
k-th probe — no further probe or sleep follows for that target — in both
loop patterns. -/
theorem C3_success_on_attempt_k (ready : Nat → String → Bool)
    (interval : Nat) (env : Nat → HTTPResult) (k m : Nat)
    (hk : 1 ≤ k) (hm : k ≤ m)
    (hs : attemptOutcome ready (env (k - 1)) = true)
    (hf : ∀ j, j < k - 1 → attemptOutcome ready (env j) = false) :
    waitLoop ready interval env m 0 =
      ⟨neverTrace interval (k - 1) ++ [.probe true], k, true⟩ ∧
    stackLoop ready interval env m 0 =
      ⟨neverTrace interval (k - 1) ++ [.probe true], k, true⟩ ∧
    probeCount (waitLoop ready interval env m 0).events = k ∧
    (waitLoop ready interval env m 0).events.getLast? = some (.probe true) ∧
    (stackLoop ready interval env m 0).events.getLast? = some (.probe true) := by
  have e1 : k - 1 + 1 = k := by omega
  have hs0 : attemptOutcome ready (env (0 + (k - 1))) = true := by simpa using hs
  have hf0 : ∀ j, j < k - 1 → attemptOutcome ready (env (0 + j)) = false := by
    intro j hj; simpa using hf j hj
  have hw := waitLoop_succ ready interval env (k - 1) m 0 (by omega) hs0 hf0
  have hsk := stackLoop_succ ready interval env (k - 1) m 0 (by omega) hs0 hf0
  rw [e1] at hw hsk
  refine ⟨hw, hsk, ?_, ?_, ?_⟩
  · rw [hw]
    show probeCount (neverTrace interval (k - 1) ++ [.probe true]) = k
    rw [probeCount_append, probeCount_neverTrace]
    simp [probeCount]
    omega
  · rw [hw]
    show (neverTrace interval (k - 1) ++ [Event.probe true]).getLast? =
      some (Event.probe true)
    simp
  · rw [hsk]
    show (neverTrace interval (k - 1) ++ [Event.probe true]).getLast? =
      some (Event.probe true)
    simp

/-- Witness for C3: a target whose first probe hits a network error and
whose second probe answers 200 is declared ready after exactly 2 probes by
both waiter loops at the budgets of the harness. -/
theorem C3_success_on_attempt_k_witness :
    waitLoop ready200 2 envSecondTry 30 0 =
      ⟨neverTrace 2 1 ++ [.probe true], 2, true⟩ ∧
    stackLoop ready200 2 envSecondTry 60 0 =
      ⟨neverTrace 2 1 ++ [.probe true], 2, true⟩ := by
  have hf : ∀ j, j < 2 - 1 → attemptOutcome ready200 (envSecondTry j) = false := by
    intro j hj
    have hj0 : j = 0 := by omega
    subst hj0
    rfl
  have h30 := C3_success_on_attempt_k ready200 2 envSecondTry 2 30
    (by omega) (by omega) rfl hf
  have h60 := C3_success_on_attempt_k ready200 2 envSecondTry 2 60
    (by omega) (by omega) rfl hf
  exact ⟨h30.1, h60.2.1⟩

/-- C4: the eventual-consistency poller returns the first result satisfying
the predicate and never a later one: if the first satisfying query result
appears at index j within the deadline, the loop issues exactly the queries
0..j and returns that result, regardless of any later results. -/
theorem C4_poller_returns_first_satisfying {α : Type} (pred : α → Bool)
    (env : Nat → Except String α) (testId : String) :
    ∀ j fuel i (r : α), j < fuel →
      env (i + j) = .ok r → pred r = true →
      (∀ l, l < j → satisfiesB pred (env (i + l)) = false) →
      pollLoop pred env testId fuel i =
        ((List.range (j + 1)).map (fun x => i + x), .found r) := by
  intro j
  induction j with
  | zero =>
    intro fuel i r hj hr hp _
    obtain ⟨n, rfl⟩ : ∃ n, fuel = n + 1 := ⟨fuel - 1, by omega⟩
    simp only [Nat.add_zero] at hr
    simp only [pollLoop, hr, hp, if_true]
    have hr1 : List.range 1 = [0] := rfl
    rw [hr1]
    simp
  | succ j ih =>
    intro fuel i r hj hr hp hf
    obtain ⟨n, rfl⟩ : ∃ n, fuel = n + 1 := ⟨fuel - 1, by omega⟩
    have h0 : satisfiesB pred (env i) = false := by
      have := hf 0 (Nat.succ_pos j); simpa using this
    have hr' : env (i + 1 + j) = .ok r := by
      have e : i + 1 + j = i + (j + 1) := by omega
      rw [e]; exact hr
    have hf' : ∀ l, l < j → satisfiesB pred (env (i + 1 + l)) = false := by
      intro l hl
      have e : i + 1 + l = i + (l + 1) := by omega
      rw [e]; exact hf (l + 1) (by omega)
    have hrec := ih n (i + 1) r (by omega) hr' hp hf'
    cases henv : env i with
    | error e2 =>
      simp only [pollLoop, henv, hrec]
      rw [range_map_shift]
    | ok r2 =>
      have hp2 : pred r2 = false := by
        have h := h0; rw [henv] at h; simpa [satisfiesB] using h
      simp only [pollLoop, henv, hp2, Bool.false_eq_true, if_false, hrec]
      rw [range_map_shift]

/-- Witness for C4: the first query raises, the second is unsatisfying, the
third satisfies (value 7) — and so would every later query; the poller
issues exactly queries 0,1,2 and returns the value observed at index 2. -/
theorem C4_poller_returns_first_satisfying_witness :
    pollLoop predSeven envSeven "X" 5 0 = ([0, 1, 2], .found 7) :=
  C4_poller_returns_first_satisfying predSeven envSeven "X" 2 5 0 7
    (by omega) rfl rfl (by decide)

/-- C5: an attempt that ends in a network-level error is classified as a
failed probe outcome and never escapes as an exception — a waiter run with
a network error at some attempt is identical to the run with a
non-matching response there — and each loop iteration issues exactly one
HTTP request with no internal retry: the probes in any run equal the loop
iterations executed. -/
theorem C5_probe_network_error_and_single_request :
    (∀ ready : Nat → String → Bool,
      attemptOutcome ready HTTPResult.netError = false) ∧
    (∀ env j m i, waitLoop ready200 2 (updEnv env j HTTPResult.netError) m i =
      waitLoop ready200 2 (updEnv env j (HTTPResult.resp 0 "")) m i) ∧
    (∀ env j m i, stackLoop ready200 2 (updEnv env j HTTPResult.netError) m i =
      stackLoop ready200 2 (updEnv env j (HTTPResult.resp 0 "")) m i) ∧
    (∀ env j m i,
      waitLoop readyHomeAssistant 2 (updEnv env j HTTPResult.netError) m i =
        waitLoop readyHomeAssistant 2 (updEnv env j (HTTPResult.resp 500 "")) m i) ∧
    (∀ (ready : Nat → String → Bool) interval env m i,
      probeCount (waitLoop ready interval env m i).events =
        (waitLoop ready interval env m i).attempts) ∧
    (∀ (ready : Nat → String → Bool) interval env m i,
      probeCount (stackLoop ready interval env m i).events =
        (stackLoop ready interval env m i).attempts) := by
  refine ⟨fun ready => rfl, ?_, ?_, ?_,
    fun ready interval env m i => waitLoop_probeCount_eq_attempts ready interval env m i,
    fun ready interval env m i => stackLoop_probeCount_eq_attempts ready interval env m i⟩
  · intro env j m i
    apply waitLoop_congr
    intro l
    by_cases hlj : l = j
    · simp [updEnv, hlj, attemptOutcome, ready200]
    · simp [updEnv, hlj]
  · intro env j m i
    apply stackLoop_congr
    intro l
    by_cases hlj : l = j
    · simp [updEnv, hlj, attemptOutcome, ready200]
    · simp [updEnv, hlj]
  · intro env j m i
    apply waitLoop_congr
    intro l
    by_cases hlj : l = j
    · simp [updEnv, hlj, attemptOutcome, readyHomeAssistant]
    · simp [updEnv, hlj]

/-- Witness for C5: a network error on the first attempt yields the same
five-attempt run as a non-matching response there, and a 30-attempt run
against a dead target issues exactly 30 requests. -/
theorem C5_probe_network_error_and_single_request_witness :
    waitLoop ready200 2 (updEnv envUp 0 HTTPResult.netError) 5 0 =
      waitLoop ready200 2 (updEnv envUp 0 (HTTPResult.resp 0 "")) 5 0 ∧
    probeCount (waitLoop ready200 2 envDown 30 0).events =
      (waitLoop ready200 2 envDown 30 0).attempts :=
  ⟨C5_probe_network_error_and_single_request.2.1 envUp 0 5 0,
   C5_probe_network_error_and_single_request.2.2.2.2.1 ready200 2 envDown 30 0⟩

/-- C6 counterexample: two all-error poll runs whose transport errors
differ (connection refused vs malformed query) end, after the deadline, in
the identical outcome whose message is the fixed not-found string — the
last-seen error is not surfaced to the caller, contradicting the claim. -/
theorem C6_counterexample_error_not_surfaced :
    pollLoop predSeven envRefused "X" 3 0 =
      ([0, 1, 2], .failed (notFoundMessage "X")) ∧
    pollLoop predSeven envMalformed "X" 3 0 =
      ([0, 1, 2], .failed (notFoundMessage "X")) ∧
    envRefused 2 ≠ envMalformed 2 := by
  refine ⟨rfl, rfl, fun h => ?_⟩
  simp [envRefused, envMalformed] at h

/-- C6 amended: an iteration whose query raises a transport error is
treated exactly like a result that does not satisfy the predicate (the run
is unchanged when the error is replaced by an unsatisfying result), and
polling continues until the deadline; when the deadline passes without
satisfaction the poller fails with the generic not-found assertion message,
which does not carry the last-seen error (errors are only printed as retry
diagnostics during the loop). -/
theorem C6_amended_error_retried_then_generic_failure {α : Type}
    (pred : α → Bool) (env : Nat → Except String α) (testId : String) :
    (∀ j (r0 : α) e fuel i, pred r0 = false →
      pollLoop pred (updPollEnv env j (.error e)) testId fuel i =
        pollLoop pred (updPollEnv env j (.ok r0)) testId fuel i) ∧
    (∀ fuel i, (∀ l, l < fuel → satisfiesB pred (env (i + l)) = false) →
      pollLoop pred env testId fuel i =
        ((List.range fuel).map (fun x => i + x),
          .failed (notFoundMessage testId))) := by
  constructor
  · intro j r0 e fuel i h
    exact pollLoop_error_like_unsatisfied pred env testId j r0 e h fuel i
  · intro fuel i h
    exact pollLoop_exhaust pred env testId fuel i h

/-- Witness for C6 amended: a three-iteration run in which every query
raises ends in the generic not-found failure. -/
theorem C6_amended_error_retried_witness :
    pollLoop predSeven envRefused "X" 3 0 =
      ((List.range 3).map (fun x => 0 + x),
        .failed (notFoundMessage "X")) :=
  (C6_amended_error_retried_then_generic_failure predSeven envRefused "X").2 3 0
    (by decide)

/-- C7: for every required key K of a config schema and every valid config
document, removing K makes the required-section validation fail and
re-adding K makes it pass again. -/
theorem C7_required_key_removal_roundtrip (required doc : List String)
    (K : String) (hK : K ∈ required)
    (hvalid : requiredSectionsOk required doc = true) :
    requiredSectionsOk required (removeKey doc K) = false ∧
    requiredSectionsOk required (K :: removeKey doc K) = true := by
  constructor
  · apply Bool.eq_false_iff.mpr
    intro hall
    rw [requiredSectionsOk, List.all_eq_true] at hall
    have h := hall K hK
    rw [decide_eq_true_eq, removeKey, List.mem_filter] at h
    have hbne : (K != K) = true := h.2
    simp at hbne
  · rw [requiredSectionsOk, List.all_eq_true]
    intro k hk
    rw [decide_eq_true_eq]
    by_cases hkK : k = K
    · subst hkK
      exact List.mem_cons_self _ _
    · rw [requiredSectionsOk, List.all_eq_true] at hvalid
      have h := hvalid k hk
      rw [decide_eq_true_eq] at h
      apply List.mem_cons_of_mem
      rw [removeKey, List.mem_filter]
      refine ⟨h, ?_⟩
      simp [hkK]

/-- Witness for C7 on the OTel Collector schema: removing and re-adding the
required `service` section of a valid document flips validation from pass
to fail and back to pass. -/
theorem C7_required_key_removal_roundtrip_witness :
    requiredSectionsOk otelRequiredSections
      (removeKey ["receivers", "processors", "exporters", "service", "extra"]
        "service") = false ∧
    requiredSectionsOk otelRequiredSections
      ("service" :: removeKey
        ["receivers", "processors", "exporters", "service", "extra"]
        "service") = true :=
  C7_required_key_removal_roundtrip otelRequiredSections
    ["receivers", "processors", "exporters", "service", "extra"] "service"
    (by decide) (by decide)

/-- C8: every readiness waiter of the harness is configured with
max_attempts between 30 and 60 and a 2-second interval, and its worst-case
wait window (total sleep before declaring failure against a dependency that
never becomes ready) lies between 60 and 120 seconds. -/
theorem C8_waiter_budgets_and_windows :
    ∀ w ∈ harnessWaiters,
      30 ≤ w.maxAttempts ∧ w.maxAttempts ≤ 60 ∧ w.interval = 2 ∧
      60 ≤ worstCaseWindow w ∧ worstCaseWindow w ≤ 120 := by
  decide

/-- Witness for C8 at the e2e stack waiter: it is in the harness list and
its worst-case window is within the 60..120 second range. -/
theorem C8_waiter_budgets_and_windows_witness :
    stackWaiterConfig ∈ harnessWaiters ∧
    60 ≤ worstCaseWindow stackWaiterConfig ∧
    worstCaseWindow stackWaiterConfig ≤ 120 :=
  ⟨by decide,
    (C8_waiter_budgets_and_windows stackWaiterConfig (by decide)).2.2.2.1,
    (C8_waiter_budgets_and_windows stackWaiterConfig (by decide)).2.2.2.2⟩

/-- C9: the integration-conftest OTel Collector waiter declares success
only on a 200 response whose body is strictly longer than 100 characters; a
200 response with a body of at most 100 characters is treated as
not-yet-ready and the waiter keeps retrying its whole budget; every other
waiter classification depends on the status code alone. -/
theorem C9_otel_collector_requires_long_body :
    (∀ s b, readyOtelCollector s b = true ↔ (s = 200 ∧ 100 < b.length)) ∧
    (∀ (b : String) m i, b.length ≤ 100 →
      waitLoop readyOtelCollector 2 (fun _ => HTTPResult.resp 200 b) m i =
        ⟨neverTrace 2 m, m, false⟩) ∧
    (∀ s b b2, ready200 s b = ready200 s b2) ∧
    (∀ s b b2, readyHomeAssistant s b = readyHomeAssistant s b2) := by
  refine ⟨?_, ?_, fun s b b2 => rfl, fun s b b2 => rfl⟩
  · intro s b
    simp [readyOtelCollector]
  · intro b m i hb
    apply waitLoop_never
    intro j
    simp [attemptOutcome, readyOtelCollector]
    omega

/-- Witness for C9: a 200 response with the 2-character body "ok" never
satisfies the OTel Collector waiter, which retries its whole 30-attempt
budget and fails. -/
theorem C9_otel_collector_requires_long_body_witness :
    waitLoop readyOtelCollector 2 (fun _ => HTTPResult.resp 200 "ok") 30 0 =
      ⟨neverTrace 2 30, 30, false⟩ :=
  C9_otel_collector_requires_long_body.2.1 "ok" 30 0 (by decide)

/-- C10: once all four stack components have reported ready, the e2e
fixture always sleeps an additional fixed 10 seconds before returning; in
particular when every component is ready on its first probe the run is four
probes followed by the 10-second sleep, so the fixture still spends 10
seconds asleep. -/
theorem C10_stack_fixture_final_sleep (e1 e2 e3 e4 : Nat → HTTPResult)
    (h1 : attemptOutcome ready200 (e1 0) = true)
    (h2 : attemptOutcome ready200 (e2 0) = true)
    (h3 : attemptOutcome ready200 (e3 0) = true)
    (h4 : attemptOutcome ready200 (e4 0) = true) :
    waitForStack e1 e2 e3 e4 =
      ⟨[.probe true, .probe true, .probe true, .probe true, .sleep 10], 4, true⟩ ∧
    sleepTotal (waitForStack e1 e2 e3 e4).events = 10 ∧
    (∀ f1 f2 f3 f4 : Nat → HTTPResult,
      (waitForStack f1 f2 f3 f4).success = true →
      (waitForStack f1 f2 f3 f4).events.getLast? = some (.sleep 10)) := by
  have hfe : ∀ j : Nat, j < 0 → True := fun j hj => trivial
  have g1 := stackLoop_succ ready200 2 e1 0 60 0 (by omega)
    (by simpa using h1) (fun j hj => absurd hj (by omega))
  have g2 := stackLoop_succ ready200 2 e2 0 60 0 (by omega)
    (by simpa using h2) (fun j hj => absurd hj (by omega))
  have g3 := stackLoop_succ ready200 2 e3 0 60 0 (by omega)
    (by simpa using h3) (fun j hj => absurd hj (by omega))
  have g4 := stackLoop_succ ready200 2 e4 0 60 0 (by omega)
    (by simpa using h4) (fun j hj => absurd hj (by omega))
  have hstack : waitForStack e1 e2 e3 e4 =
      ⟨[.probe true, .probe true, .probe true, .probe true, .sleep 10], 4, true⟩ := by
    simp only [waitForStack, stackRuns, g1, g2, g3, g4]
    rfl
  refine ⟨hstack, by rw [hstack]; rfl, ?_⟩
  intro f1 f2 f3 f4 hs
  exact stackRuns_last [f1, f2, f3, f4] hs

/-- Witness for C10: with all four components answering 200 immediately,
the fixture runs four probes and the fixed 10-second sleep. -/
theorem C10_stack_fixture_final_sleep_witness :
    waitForStack envUp envUp envUp envUp =
      ⟨[.probe true, .probe true, .probe true, .probe true, .sleep 10], 4, true⟩ :=
  (C10_stack_fixture_final_sleep envUp envUp envUp envUp rfl rfl rfl rfl).1

end Obstackd
